import Mathlib

/-!
Shallow embedding of `src/port-forwarder.ts` from `@gibme/port-forwarder`.

The source file contains two revisions of the same class `PortForwarder`:
the first keyed on `LazyStorage` and using `||=` to default-fill its options,
the second keyed on `MemoryCache` and using `??=`.  Apart from the
constructor's defaulting operators and the (a)synchrony of the session store,
the two revisions' `forward`, `hangup` and `list` bodies are identical, so a
single embedding of those operations covers both; the two constructors are
embedded separately.

Sockets are modelled by their observable state (remote address/port, paused
flag, configured idle timeout, keep-alive flag, and whether `end()` has been
called); the platform's connect attempt is modelled by an explicit outcome
(success or an error), and `forward` becomes a pure function from the socket
state, the session registry and that outcome to a result, a new registry, the
new socket states and the emitted notifications.
-/

namespace PortForwarderSpec

/-- JavaScript truthiness of a possibly-undefined string
(`undefined` and `""` are falsy): models `!socket.remoteAddress`. -/
def truthyStr : Option String → Bool
  | some s => s ≠ ""
  | none => false

/-- JavaScript truthiness of a possibly-undefined number
(`undefined` and `0` are falsy): models `!socket.remotePort`. -/
def truthyNat : Option Nat → Bool
  | some n => n ≠ 0
  | none => false

/-- `EndPoint` / `PortForwarder.EndPoint`: `{ ip: string, port: number }`. -/
structure EndPoint where
  ip : String
  port : Nat
deriving DecidableEq, Repr

/-- `IForwardSession` / `PortForwarder.Session`:
`{ ip, port, forward: EndPoint }`. -/
structure Session where
  ip : String
  port : Nat
  forward : EndPoint
deriving DecidableEq, Repr

/-- The object key `{ ip: socket.remoteAddress, port: socket.remotePort }`
used for `sessions.set` / `sessions.del`.  Both fields may be `undefined`
(the socket properties are optional), hence `Option`. -/
structure SessionKey where
  ip : Option String
  port : Option Nat
deriving DecidableEq, Repr

/-- Observable state of a `net.Socket`. -/
structure Socket where
  remoteAddress : Option String
  remotePort : Option Nat
  paused : Bool
  timeout : Nat
  keepAlive : Bool
  writableEnded : Bool
deriving DecidableEq, Repr

/-- The session store (`LazyStorage` / `MemoryCache` with `stdTTL: 0`, i.e.
no expiry): a key-value map, modelled as an association list. -/
abbrev Registry := List (SessionKey × Session)

namespace Registry

/-- `sessions.del(key)`: removes every entry stored under `key`. -/
def del (r : Registry) (k : SessionKey) : Registry :=
  r.filter (fun p => p.1 ≠ k)

/-- `sessions.set(key, value)`: inserts or overwrites the entry for `key`. -/
def set (r : Registry) (k : SessionKey) (v : Session) : Registry :=
  (k, v) :: del r k

/-- Store lookup, used only to state properties of the registry. -/
def lookup (r : Registry) (k : SessionKey) : Option Session :=
  (r.find? (fun p => p.1 = k)).map (·.2)

/-- The values currently stored (`sessions.list().values()`). -/
def values (r : Registry) : List Session :=
  r.map (·.2)

end Registry

/-- The result state of the promise returned by `forward`. -/
inductive ForwardResult where
  | resolved (b : Bool)
  | rejected (msg : String)
deriving DecidableEq, Repr

/-- Outcome of the platform's outbound connect attempt
(`createConnection` either fires its connect callback or emits `error`). -/
inductive ConnectOutcome where
  | success
  | failure (msg : String)
deriving DecidableEq, Repr

/-- Notifications emitted on the `PortForwarder` event emitter. -/
inductive Notif where
  | connectionEv (port : Nat)
  | forwardEv (fromIp : String) (fromPort : Nat) (toIp : String) (toPort : Nat)
  | errorEv (msg : String)
deriving DecidableEq, Repr

/-- Everything observable about one call to `forward`: the promise result,
the registry afterwards, the final inbound socket state, the outbound
connection's socket state (`none` if `createConnection` was never reached),
whether the two sockets were piped into each other, how many outbound
connect attempts were made, and the notifications emitted. -/
structure ForwardOutcome where
  result : ForwardResult
  sessions : Registry
  socket : Socket
  outbound : Option Socket
  piped : Bool
  connectAttempts : Nat
  events : List Notif
deriving Repr

/-- `PortForwarder.forward(socket, ip, port, timeout, keepAlive)` (identical
in both revisions of the source, up to the synchrony of the store):

* `socket.setTimeout(timeout); socket.setKeepAlive(keepAlive);` run first,
  unconditionally;
* if `!socket.remoteAddress || !socket.remotePort || !socket.isPaused()`,
  the promise resolves `false` with nothing else done;
* otherwise `createConnection({ host: ip, port, keepAlive, timeout }, cb)`
  is called once; an `error` before connect rejects the promise;
* on connect, the guard `!socket.remoteAddress || !socket.remotePort` is
  re-checked (resolving `false` if it now fails); otherwise the two sockets
  are piped together, the inbound socket is resumed, the session record is
  stored under `{ ip: socket.remoteAddress, port: socket.remotePort }`, the
  `forward` event is emitted and the promise resolves `true`. -/
def forward (socket : Socket) (ip : String) (port : Nat)
    (timeout : Nat) (keepAlive : Bool) (sessions : Registry)
    (connect : ConnectOutcome) : ForwardOutcome :=
  let socket : Socket := { socket with timeout := timeout, keepAlive := keepAlive }
  if !truthyStr socket.remoteAddress || !truthyNat socket.remotePort || !socket.paused then
    { result := .resolved false, sessions := sessions, socket := socket,
      outbound := none, piped := false, connectAttempts := 0, events := [] }
  else
    let connection : Socket :=
      { remoteAddress := some ip, remotePort := some port, paused := false,
        timeout := timeout, keepAlive := keepAlive, writableEnded := false }
    match connect with
    | .failure msg =>
      { result := .rejected msg, sessions := sessions, socket := socket,
        outbound := some connection, piped := false, connectAttempts := 1, events := [] }
    | .success =>
      if !truthyStr socket.remoteAddress || !truthyNat socket.remotePort then
        { result := .resolved false, sessions := sessions, socket := socket,
          outbound := some connection, piped := false, connectAttempts := 1, events := [] }
      else
        let a := socket.remoteAddress.getD ""
        let p := socket.remotePort.getD 0
        let client : Session := { ip := a, port := p, forward := { ip := ip, port := port } }
        let key : SessionKey := { ip := socket.remoteAddress, port := socket.remotePort }
        { result := .resolved true,
          sessions := Registry.set sessions key client,
          socket := { socket with paused := false },
          outbound := some connection,
          piped := true,
          connectAttempts := 1,
          events := [.forwardEv a p ip port] }

/-- The private method `hangup(socket)`: `socket.end(cb)`, a graceful
half-close that flushes and finishes the writable side. -/
def hangupSocket (s : Socket) : Socket :=
  { s with writableEnded := true }

/-- State of an established relay: the registry and the two sockets wired
together by `forward`. -/
structure RelayState where
  sessions : Registry
  inbound : Socket
  outbound : Socket
deriving Repr

/-- The `hangup` closure created inside `forward`:
`sessions.del({ ip: socket.remoteAddress, port: socket.remotePort })`
followed by `this.hangup(conn)`, where `socket` is always the inbound
socket and `conn` is the socket passed to the closure.
`endInbound` selects which socket plays the role of `conn`. -/
def hangupClosure (st : RelayState) (endInbound : Bool) : RelayState :=
  let sessions := Registry.del st.sessions
    { ip := st.inbound.remoteAddress, port := st.inbound.remotePort }
  if endInbound then
    { st with sessions := sessions, inbound := hangupSocket st.inbound }
  else
    { st with sessions := sessions, outbound := hangupSocket st.outbound }

/-- `PortForwarder.list()`: obtains the store's values and pushes each one
into a fresh array, which is returned. -/
def listSessions (r : Registry) : List Session :=
  (Registry.values r).foldl (fun sessions session => sessions ++ [session]) []

/-- `PortForwarderOptions` / `PortForwarder.Config`: the constructor input,
with the optional fields modelled as `Option`. -/
structure PortForwarderOptions where
  port : Nat
  ip : Option String
  timeout : Option Nat
  keepalive : Option Bool
  remote : Option EndPoint
deriving DecidableEq, Repr

/-- `PortForwarderOptionsFinal`: the options object after the constructor's
default-filling, as read by the rest of the class. -/
structure PortForwarderOptionsFinal where
  port : Nat
  ip : String
  timeout : Nat
  keepalive : Bool
  remote : Option EndPoint
deriving DecidableEq, Repr

/-- JavaScript `x ||= d` on a possibly-undefined string: assigns `d` when
`x` is falsy (`undefined` or `""`). -/
def orAssignStr (x : Option String) (d : String) : String :=
  match x with
  | some s => if s = "" then d else s
  | none => d

/-- JavaScript `x ||= d` on a possibly-undefined number: assigns `d` when
`x` is falsy (`undefined` or `0`). -/
def orAssignNat (x : Option Nat) (d : Nat) : Nat :=
  match x with
  | some n => if n = 0 then d else n
  | none => d

/-- The module-level `networkInterfaces()` helper (identical in both
revisions): `'0.0.0.0'` plus every address of every OS interface, sorted.
The OS enumeration is the platform's; it is passed in as `osAddresses`. -/
def networkInterfaces (osAddresses : List String) : List String :=
  List.mergeSort ("0.0.0.0" :: osAddresses) (fun a b => a ≤ b)

/-- The constructor of the first (LazyStorage) revision:
`options.ip ||= '0.0.0.0'; options.timeout ||= 15 * 60_000;
options.keepalive ??= false;` then the `isIP` check and the
locally-bound-interface check, each throwing on failure.  `isIPfn` is the
platform's `net.isIP` (0 for an invalid address, 4 or 6 otherwise). -/
def constructor1 (isIPfn : String → Nat) (osAddresses : List String)
    (options : PortForwarderOptions) : Except String PortForwarderOptionsFinal :=
  let interfaces := networkInterfaces osAddresses
  let ip := orAssignStr options.ip "0.0.0.0"
  let timeout := orAssignNat options.timeout (15 * 60000)
  let keepalive := options.keepalive.getD false
  if isIPfn ip = 0 then
    Except.error (ip ++ " is not a valid IP address")
  else if !interfaces.contains ip then
    Except.error (ip ++ " is not a locally bound IP address")
  else
    Except.ok { port := options.port, ip := ip, timeout := timeout,
                keepalive := keepalive, remote := options.remote }

/-- The constructor of the second (MemoryCache) revision: identical except
that all three defaults use `??=` (assign only when nullish):
`this.options.ip ??= '0.0.0.0'; this.options.timeout ??= 15 * 60_000;
this.options.keepalive ??= false;`. -/
def constructor2 (isIPfn : String → Nat) (osAddresses : List String)
    (options : PortForwarderOptions) : Except String PortForwarderOptionsFinal :=
  let interfaces := networkInterfaces osAddresses
  let ip := options.ip.getD "0.0.0.0"
  let timeout := options.timeout.getD (15 * 60000)
  let keepalive := options.keepalive.getD false
  if isIPfn ip = 0 then
    Except.error (ip ++ " is not a valid IP address")
  else if !interfaces.contains ip then
    Except.error (ip ++ " is not a locally bound IP address")
  else
    Except.ok { port := options.port, ip := ip, timeout := timeout,
                keepalive := keepalive, remote := options.remote }

/-- How the async `connection` handler's own promise settled: the handler
has no `try`/`catch`, so a rejection from `await this.forward(...)`
escapes as an unhandled promise rejection. -/
inductive HandlerOutcome where
  | completed
  | unhandledRejection (msg : String)
deriving DecidableEq, Repr

/-- Observable effect of one firing of the `connection` handler. -/
structure ConnectionStep where
  events : List Notif
  sessions : Registry
  handler : HandlerOutcome
deriving Repr

/-- The `connection` handler installed by both constructors:
`this.emit('connection', socket, this.options.port);` then, if
`this.options.remote` is set,
`await this.forward(socket, remote.ip, remote.port)` (with the default
`timeout`/`keepAlive` arguments, i.e. the finalized options' values). -/
def onConnection (cfg : PortForwarderOptionsFinal) (sessions : Registry)
    (socket : Socket) (connect : ConnectOutcome) : ConnectionStep :=
  match cfg.remote with
  | none =>
    { events := [.connectionEv cfg.port], sessions := sessions, handler := .completed }
  | some remote =>
    let out := forward socket remote.ip remote.port cfg.timeout cfg.keepalive sessions connect
    match out.result with
    | .rejected msg =>
      { events := .connectionEv cfg.port :: out.events, sessions := out.sessions,
        handler := .unhandledRejection msg }
    | .resolved _ =>
      { events := .connectionEv cfg.port :: out.events, sessions := out.sessions,
        handler := .completed }

/-- Which socket a terminal event fired on. -/
inductive Side where
  | inbound
  | outbound
deriving DecidableEq, Repr

/-- Terminal events wired to the `hangup` closure in `forward`:
`close`, `end` and `timeout` on each socket. -/
inductive TerminalEvent where
  | closeEv
  | endEv
  | timeoutEv
deriving DecidableEq, Repr

/-- One firing of a terminal-event handler registered by `forward`:
`connection.on('close'|'end'|'timeout', () => hangup(socket))` and
`socket.on('close'|'end'|'timeout', () => hangup(connection))`. -/
def teardown (st : RelayState) (side : Side) (_e : TerminalEvent) : RelayState :=
  match side with
  | .inbound => hangupClosure st false
  | .outbound => hangupClosure st true

/-- A concrete inbound socket as the server's `pauseOnConnect: true` listener
hands it over: known peer, paused, no timeout configured yet. -/
def sampleSocket : Socket :=
  { remoteAddress := some "203.0.113.7", remotePort := some 52344,
    paused := true, timeout := 0, keepAlive := false, writableEnded := false }

/-- A concrete inbound socket that is already flowing (not paused). -/
def flowingSocket : Socket :=
  { remoteAddress := some "203.0.113.7", remotePort := some 52344,
    paused := false, timeout := 0, keepAlive := false, writableEnded := false }

/-- A concrete stand-in for the platform's `net.isIP`. -/
def sampleIsIP : String → Nat :=
  fun s => if s = "0.0.0.0" ∨ s = "127.0.0.1" then 4 else 0

/-- A concrete finalized configuration with a static remote endpoint. -/
def sampleRemoteConfig : PortForwarderOptionsFinal :=
  { port := 4000, ip := "0.0.0.0", timeout := 900000, keepalive := false,
    remote := some { ip := "198.51.100.2", port := 9000 } }

/-- The registry key of `sampleSocket`'s peer. -/
def sampleKey : SessionKey :=
  { ip := some "203.0.113.7", port := some 52344 }

/-- A concrete session record for `sampleSocket`'s peer. -/
def sampleSession : Session :=
  { ip := "203.0.113.7", port := 52344, forward := { ip := "198.51.100.2", port := 9000 } }

/-- Constructor input whose `ip` is the empty string and whose `timeout` is
0: both fields are falsy but not nullish, so `||=` and `??=` treat them
differently. -/
def falsyOptions : PortForwarderOptions :=
  { port := 4000, ip := some "", timeout := some 0, keepalive := none, remote := none }

/-- Constructor input with no falsy-but-present field. -/
def nonFalsyOptions : PortForwarderOptions :=
  { port := 4000, ip := some "127.0.0.1", timeout := none, keepalive := none, remote := none }

section Lemmas

/-- Unfolding of `lookup` on a nonempty store. -/
theorem Registry.lookup_cons (hd : SessionKey × Session) (tl : Registry) (k : SessionKey) :
    Registry.lookup (hd :: tl) k =
      if hd.1 = k then some hd.2 else Registry.lookup tl k := by
  by_cases h : hd.1 = k <;> simp [Registry.lookup, List.find?, h]

/-- Unfolding of `del` on a nonempty store. -/
theorem Registry.del_cons (hd : SessionKey × Session) (tl : Registry) (k : SessionKey) :
    Registry.del (hd :: tl) k =
      if hd.1 = k then Registry.del tl k else hd :: Registry.del tl k := by
  by_cases h : hd.1 = k <;> simp [Registry.del, List.filter_cons, h]

/-- Deleting a key removes every binding of that key from the store. -/
theorem Registry.lookup_del_self (r : Registry) (k : SessionKey) :
    Registry.lookup (Registry.del r k) k = none := by
  induction r with
  | nil => rfl
  | cons hd tl ih =>
    rw [Registry.del_cons]
    by_cases h : hd.1 = k
    · rw [if_pos h]
      exact ih
    · rw [if_neg h, Registry.lookup_cons, if_neg h]
      exact ih

/-- Deleting a key leaves every other key's binding unchanged. -/
theorem Registry.lookup_del_ne (r : Registry) (k k' : SessionKey) (h : k' ≠ k) :
    Registry.lookup (Registry.del r k) k' = Registry.lookup r k' := by
  induction r with
  | nil => rfl
  | cons hd tl ih =>
    rw [Registry.del_cons]
    by_cases hk : hd.1 = k
    · have hne : ¬hd.1 = k' := by
        rw [hk]
        exact fun hc => h hc.symm
      rw [if_pos hk, ih, Registry.lookup_cons, if_neg hne]
    · rw [if_neg hk, Registry.lookup_cons, Registry.lookup_cons, ih]

/-- Setting a key makes the lookup of that key return the stored value. -/
theorem Registry.lookup_set_self (r : Registry) (k : SessionKey) (v : Session) :
    Registry.lookup (Registry.set r k v) k = some v := by
  rw [Registry.set, Registry.lookup_cons, if_pos rfl]

/-- Setting a key leaves every other key's binding unchanged. -/
theorem Registry.lookup_set_ne (r : Registry) (k k' : SessionKey) (v : Session) (h : k' ≠ k) :
    Registry.lookup (Registry.set r k v) k' = Registry.lookup r k' := by
  have hne : ¬((k, v) : SessionKey × Session).1 = k' := fun hc => h hc.symm
  rw [Registry.set, Registry.lookup_cons, if_neg hne, Registry.lookup_del_ne r k k' h]

/-- Deleting the same key twice is the same as deleting it once. -/
theorem Registry.del_del (r : Registry) (k : SessionKey) :
    Registry.del (Registry.del r k) k = Registry.del r k := by
  induction r with
  | nil => rfl
  | cons hd tl ih =>
    rw [Registry.del_cons]
    by_cases h : hd.1 = k
    · rw [if_pos h]
      exact ih
    · rw [if_neg h, Registry.del_cons, if_neg h, ih]

/-- The push loop of `list()` copies exactly the store's values. -/
theorem listSessions_eq_values (r : Registry) :
    listSessions r = Registry.values r := by
  suffices h : ∀ (l seed : List Session),
      l.foldl (fun sessions session => sessions ++ [session]) seed = seed ++ l by
    simpa [listSessions] using h (Registry.values r) []
  intro l
  induction l with
  | nil => simp
  | cons hd tl ih =>
    intro seed
    simp [List.foldl_cons, ih]

end Lemmas

/-- C5: executing the teardown path a second time for the same relay is a
no-op: deleting an already-absent session key (`Registry.del` twice) and
hanging up an already-closing socket (`hangupSocket` twice) leave the
registry and the socket state unchanged, and consequently running the
terminal-event handler a second time returns the exact same relay state,
so the session is removed exactly once.  All operations are total, so no
exception can be raised. -/
theorem teardown_idempotent (st : RelayState) (side : Side) (e e' : TerminalEvent)
    (r : Registry) (k : SessionKey) (s : Socket) :
    teardown (teardown st side e) side e' = teardown st side e ∧
    Registry.del (Registry.del r k) k = Registry.del r k ∧
    hangupSocket (hangupSocket s) = hangupSocket s := by
  refine ⟨?_, Registry.del_del r k, rfl⟩
  cases side <;>
    simp [teardown, hangupClosure, hangupSocket, Registry.del_del]

/-- Witness for C5 at a concrete relay: a second terminal event on the
same side reproduces the state of the first teardown exactly. -/
theorem teardown_idempotent_witness :
    teardown
        (teardown { sessions := [(sampleKey, sampleSession)], inbound := sampleSocket,
                    outbound := sampleSocket } Side.inbound TerminalEvent.closeEv)
        Side.inbound TerminalEvent.endEv =
      teardown { sessions := [(sampleKey, sampleSession)], inbound := sampleSocket,
                 outbound := sampleSocket } Side.inbound TerminalEvent.closeEv :=
  (teardown_idempotent
    { sessions := [(sampleKey, sampleSession)], inbound := sampleSocket,
      outbound := sampleSocket }
    Side.inbound TerminalEvent.closeEv TerminalEvent.endEv [] sampleKey sampleSocket).1

/-- C2: for an established relay whose session was recorded under the
inbound peer's address/port, every terminal event (`close`, `end` or
`timeout`) on either socket removes exactly that session key from the
registry and gracefully half-closes (`end()`s) the other socket.  The
hypotheses `ha`/`hp` record that the inbound socket still reports its
original peer address and port when the teardown handler reads them. -/
theorem teardown_removes_session_hangs_up_peer (st : RelayState) (r : Registry)
    (a : String) (p : Nat) (cl : Session)
    (ha : st.inbound.remoteAddress = some a) (hp : st.inbound.remotePort = some p)
    (hs : st.sessions = Registry.set r ⟨some a, some p⟩ cl)
    (side : Side) (e : TerminalEvent) :
    Registry.lookup (teardown st side e).sessions ⟨some a, some p⟩ = none ∧
    (side = Side.inbound → (teardown st side e).outbound.writableEnded = true) ∧
    (side = Side.outbound → (teardown st side e).inbound.writableEnded = true) := by
  cases side <;>
    simp [teardown, hangupClosure, hangupSocket, ha, hp, hs, Registry.set,
      Registry.del_del, Registry.lookup_del_self]

/-- Witness for C2 at a concrete relay: inbound peer 203.0.113.7:52344,
session recorded under that key, `close` fired on the inbound side. -/
theorem teardown_removes_session_hangs_up_peer_witness :
    Registry.lookup
        (teardown
          { sessions := Registry.set [] ⟨some "203.0.113.7", some 52344⟩
              { ip := "203.0.113.7", port := 52344,
                forward := { ip := "198.51.100.2", port := 9000 } },
            inbound := sampleSocket, outbound := sampleSocket }
          Side.inbound TerminalEvent.closeEv).sessions
      ⟨some "203.0.113.7", some 52344⟩ = none :=
  (teardown_removes_session_hangs_up_peer
    { sessions := Registry.set [] ⟨some "203.0.113.7", some 52344⟩
        { ip := "203.0.113.7", port := 52344,
          forward := { ip := "198.51.100.2", port := 9000 } },
      inbound := sampleSocket, outbound := sampleSocket }
    [] "203.0.113.7" 52344
    { ip := "203.0.113.7", port := 52344,
      forward := { ip := "198.51.100.2", port := 9000 } }
    rfl rfl rfl Side.inbound TerminalEvent.closeEv).1

/-- C1: a `forward` call on a paused inbound socket with a known peer
address and port, whose outbound connect succeeds, resolves `true`,
resumes the inbound socket, pipes the two sockets together, stores exactly
one session under the peer's address/port with value
`{ ip, port, forward: { ip, port } }`, leaves every other key untouched,
and emits the `forward` notification; and any `forward` call whose result
is not `resolved true` (resolves `false` or rejects) leaves the registry
unchanged. -/
theorem forward_success_establishes_session (sock : Socket) (sessions : Registry)
    (ip : String) (port t : Nat) (ka : Bool)
    (ha : truthyStr sock.remoteAddress = true) (hp : truthyNat sock.remotePort = true)
    (hpause : sock.paused = true) :
    (forward sock ip port t ka sessions .success).result = .resolved true ∧
    (forward sock ip port t ka sessions .success).socket.paused = false ∧
    (forward sock ip port t ka sessions .success).piped = true ∧
    (forward sock ip port t ka sessions .success).events =
      [.forwardEv (sock.remoteAddress.getD "") (sock.remotePort.getD 0) ip port] ∧
    (forward sock ip port t ka sessions .success).sessions =
      Registry.set sessions ⟨sock.remoteAddress, sock.remotePort⟩
        { ip := sock.remoteAddress.getD "", port := sock.remotePort.getD 0,
          forward := { ip := ip, port := port } } ∧
    Registry.lookup (forward sock ip port t ka sessions .success).sessions
        ⟨sock.remoteAddress, sock.remotePort⟩ =
      some { ip := sock.remoteAddress.getD "", port := sock.remotePort.getD 0,
             forward := { ip := ip, port := port } } ∧
    (∀ k, k ≠ (⟨sock.remoteAddress, sock.remotePort⟩ : SessionKey) →
      Registry.lookup (forward sock ip port t ka sessions .success).sessions k =
        Registry.lookup sessions k) ∧
    (∀ (s : Socket) (c : ConnectOutcome),
      (forward s ip port t ka sessions c).result ≠ .resolved true →
      (forward s ip port t ka sessions c).sessions = sessions) := by
  refine ⟨?_, ?_, ?_, ?_, ?_, ?_, ?_, ?_⟩
  · simp [forward, ha, hp, hpause]
  · simp [forward, ha, hp, hpause]
  · simp [forward, ha, hp, hpause]
  · simp [forward, ha, hp, hpause]
  · simp [forward, ha, hp, hpause]
  · simp [forward, ha, hp, hpause, Registry.lookup_set_self]
  · intro k hk
    simp only [forward, ha, hp, hpause]
    simp [Registry.lookup_set_ne sessions _ k _ hk]
  · intro s c h
    by_cases g : (!truthyStr s.remoteAddress || !truthyNat s.remotePort || !s.paused) = true
    · simp [forward, g]
    · cases c with
      | failure msg => simp [forward, g]
      | success =>
        by_cases g2 : (!truthyStr s.remoteAddress || !truthyNat s.remotePort) = true
        · simp [forward, g, g2]
        · have hpa : s.paused = true := by
            by_contra hc
            apply g
            rw [Bool.not_eq_true] at hc
            simp [hc]
          exact absurd (by simp [forward, g, g2, hpa]) h

/-- Witness for C1 at a concrete paused socket with peer
203.0.113.7:52344 forwarded to 198.51.100.2:9000. -/
theorem forward_success_establishes_session_witness :
    (forward sampleSocket "198.51.100.2" 9000 900000 false [] .success).result =
      .resolved true :=
  (forward_success_establishes_session sampleSocket [] "198.51.100.2" 9000 900000 false
    rfl rfl rfl).1

/-- C3: a `forward` call that reaches the outbound connect attempt
(preconditions hold) and whose connect fails rejects the promise with the
connection error, leaves the registry unchanged, emits no notification,
and makes exactly one connect attempt (no retry/reconnection). -/
theorem forward_connect_failure_rejects (sock : Socket) (sessions : Registry)
    (ip : String) (port t : Nat) (ka : Bool) (msg : String)
    (ha : truthyStr sock.remoteAddress = true) (hp : truthyNat sock.remotePort = true)
    (hpause : sock.paused = true) :
    (forward sock ip port t ka sessions (.failure msg)).result = .rejected msg ∧
    (forward sock ip port t ka sessions (.failure msg)).sessions = sessions ∧
    (forward sock ip port t ka sessions (.failure msg)).events = [] ∧
    (forward sock ip port t ka sessions (.failure msg)).piped = false ∧
    (forward sock ip port t ka sessions (.failure msg)).connectAttempts = 1 := by
  refine ⟨?_, ?_, ?_, ?_, ?_⟩ <;> simp [forward, ha, hp, hpause]

/-- Witness for C3 at a concrete paused socket whose outbound connect to
198.51.100.2:9000 fails with ECONNREFUSED. -/
theorem forward_connect_failure_rejects_witness :
    (forward sampleSocket "198.51.100.2" 9000 900000 false [] (.failure "ECONNREFUSED")).result =
      .rejected "ECONNREFUSED" :=
  (forward_connect_failure_rejects sampleSocket [] "198.51.100.2" 9000 900000 false
    "ECONNREFUSED" rfl rfl rfl).1

/-- C4 counterexample: the claim says a precondition-failing `forward` call
leaves the inbound socket unmodified, but `socket.setTimeout(timeout)` and
`socket.setKeepAlive(keepAlive)` run before the precondition check.  On a
non-paused socket whose configured timeout is 0, `forward` with timeout
100 and keep-alive on resolves `false` and creates no session, yet returns
a socket whose timeout is now 100 and keep-alive is on — modified. -/
theorem forward_precondition_failure_modifies_socket :
    (forward flowingSocket "198.51.100.2" 9000 100 true [] .success).result =
      .resolved false ∧
    (forward flowingSocket "198.51.100.2" 9000 100 true [] .success).sessions = [] ∧
    (forward flowingSocket "198.51.100.2" 9000 100 true [] .success).socket ≠
      flowingSocket ∧
    (forward flowingSocket "198.51.100.2" 9000 100 true [] .success).socket.timeout = 100 ∧
    flowingSocket.timeout = 0 := by
  refine ⟨rfl, rfl, ?_, rfl, rfl⟩
  intro hcontra
  have : (forward flowingSocket "198.51.100.2" 9000 100 true [] .success).socket.timeout =
      flowingSocket.timeout := by rw [hcontra]
  simp [forward, flowingSocket] at this

/-- C4 as amended: if the inbound socket has no (truthy) peer address, no
(truthy) peer port, or is not paused, every `forward` call resolves
`false`, creates no session, raises no error, emits nothing, never reaches
the connect attempt, and does not pipe or resume the socket; however the
socket is not left fully unmodified: its idle timeout and keep-alive flag
are (re)configured to the call's arguments before the precondition check,
and that is the only modification. -/
theorem forward_precondition_failure_resolves_false (sock : Socket) (sessions : Registry)
    (ip : String) (port t : Nat) (ka : Bool) (c : ConnectOutcome)
    (h : (!truthyStr sock.remoteAddress || !truthyNat sock.remotePort || !sock.paused) = true) :
    (forward sock ip port t ka sessions c).result = .resolved false ∧
    (forward sock ip port t ka sessions c).sessions = sessions ∧
    (forward sock ip port t ka sessions c).events = [] ∧
    (forward sock ip port t ka sessions c).connectAttempts = 0 ∧
    (forward sock ip port t ka sessions c).outbound = none ∧
    (forward sock ip port t ka sessions c).piped = false ∧
    (forward sock ip port t ka sessions c).socket =
      { sock with timeout := t, keepAlive := ka } := by
  refine ⟨?_, ?_, ?_, ?_, ?_, ?_, ?_⟩ <;> simp [forward, h]

/-- Witness for the amended C4 at a concrete non-paused (already flowing)
socket. -/
theorem forward_precondition_failure_resolves_false_witness :
    (forward flowingSocket "198.51.100.2" 9000 100 true [] .success).result =
      .resolved false :=
  (forward_precondition_failure_resolves_false flowingSocket [] "198.51.100.2" 9000 100 true
    .success rfl).1

/-- C6 counterexample: the claim says the idle timeout is applied to the
inbound side only and not to the outbound connection, but `forward` passes
`timeout` in the `createConnection` options, so the outbound socket gets
the same idle timeout.  Concretely, a `forward` with timeout 12345 yields
an outbound connection whose timeout is 12345. -/
theorem forward_timeout_applied_to_outbound :
    ((forward sampleSocket "198.51.100.2" 9000 12345 false [] .success).outbound.map
      Socket.timeout) = some 12345 ∧
    (forward sampleSocket "198.51.100.2" 9000 12345 false [] .success).socket.timeout =
      12345 := by
  exact ⟨rfl, rfl⟩

/-- C6 as amended: for every `forward` call with timeout `t` and keep-alive
flag `ka` that reaches the outbound connect attempt, the idle timeout `t`
is applied to both sides — to the inbound socket via `setTimeout` and to
the outbound connection via the `timeout` option of `createConnection` —
and the keep-alive flag is likewise applied to both sides. -/
theorem forward_timeout_keepalive_both_sides (sock : Socket) (sessions : Registry)
    (ip : String) (port t : Nat) (ka : Bool) (c : ConnectOutcome)
    (ha : truthyStr sock.remoteAddress = true) (hp : truthyNat sock.remotePort = true)
    (hpause : sock.paused = true) :
    (forward sock ip port t ka sessions c).socket.timeout = t ∧
    (forward sock ip port t ka sessions c).socket.keepAlive = ka ∧
    ((forward sock ip port t ka sessions c).outbound.map Socket.timeout = some t) ∧
    ((forward sock ip port t ka sessions c).outbound.map Socket.keepAlive = some ka) := by
  cases c <;> refine ⟨?_, ?_, ?_, ?_⟩ <;> simp [forward, ha, hp, hpause]

/-- Witness for the amended C6 at a concrete paused socket, timeout 12345,
keep-alive on. -/
theorem forward_timeout_keepalive_both_sides_witness :
    (forward sampleSocket "198.51.100.2" 9000 12345 true [] .success).socket.timeout =
      12345 :=
  (forward_timeout_keepalive_both_sides sampleSocket [] "198.51.100.2" 9000 12345 true
    .success rfl rfl rfl).1

/-- C7: for both revisions of the constructor, construction succeeds
exactly when the finalized ip (the configured ip after that revision's
default-filling with "0.0.0.0") passes the platform's `isIP` check and is
contained in the enumerated list of locally bound interface addresses;
in every other case the constructor throws (returns an error); and the
enumerated interface list always contains the wildcard "0.0.0.0". -/
theorem constructor_ok_iff_valid_bound_ip (isIPfn : String → Nat)
    (osAddresses : List String) (options : PortForwarderOptions) :
    ((∃ cfg, constructor1 isIPfn osAddresses options = Except.ok cfg) ↔
      (isIPfn (orAssignStr options.ip "0.0.0.0") ≠ 0 ∧
        (networkInterfaces osAddresses).contains (orAssignStr options.ip "0.0.0.0") = true)) ∧
    ((∃ cfg, constructor2 isIPfn osAddresses options = Except.ok cfg) ↔
      (isIPfn (options.ip.getD "0.0.0.0") ≠ 0 ∧
        (networkInterfaces osAddresses).contains (options.ip.getD "0.0.0.0") = true)) ∧
    ((∀ cfg, constructor1 isIPfn osAddresses options ≠ Except.ok cfg) →
      ∃ msg, constructor1 isIPfn osAddresses options = Except.error msg) ∧
    ((∀ cfg, constructor2 isIPfn osAddresses options ≠ Except.ok cfg) →
      ∃ msg, constructor2 isIPfn osAddresses options = Except.error msg) ∧
    "0.0.0.0" ∈ networkInterfaces osAddresses := by
  refine ⟨?_, ?_, ?_, ?_, ?_⟩
  · by_cases h1 : isIPfn (orAssignStr options.ip "0.0.0.0") = 0
    · simp [constructor1, h1]
    · by_cases h2 : orAssignStr options.ip "0.0.0.0" ∈ networkInterfaces osAddresses
      · simp [constructor1, h1, h2]
      · simp [constructor1, h1, h2]
  · by_cases h1 : isIPfn (options.ip.getD "0.0.0.0") = 0
    · simp [constructor2, h1]
    · by_cases h2 : options.ip.getD "0.0.0.0" ∈ networkInterfaces osAddresses
      · simp [constructor2, h1, h2]
      · simp [constructor2, h1, h2]
  · intro hnotok
    cases hc : constructor1 isIPfn osAddresses options with
    | error msg => exact ⟨msg, rfl⟩
    | ok cfg => exact absurd hc (hnotok cfg)
  · intro hnotok
    cases hc : constructor2 isIPfn osAddresses options with
    | error msg => exact ⟨msg, rfl⟩
    | ok cfg => exact absurd hc (hnotok cfg)
  · exact ((List.mergeSort_perm ("0.0.0.0" :: osAddresses) (fun a b => a ≤ b)).mem_iff).mpr
      (List.mem_cons_self "0.0.0.0" osAddresses)

/-- Witness for C7: the wildcard address is always among the enumerated
interfaces, at a concrete platform enumeration. -/
theorem constructor_ok_iff_valid_bound_ip_witness :
    "0.0.0.0" ∈ networkInterfaces ["127.0.0.1"] :=
  (constructor_ok_iff_valid_bound_ip sampleIsIP ["127.0.0.1"] nonFalsyOptions).2.2.2.2

/-- C8 counterexample: the claim says a connect failure of the automatic
static forward is reported through the error notification channel, but the
`connection` handler `await`s `this.forward(...)` without any catch, and a
connect failure rejects that promise.  Concretely, with a static remote
configured and a paused inbound socket whose outbound connect fails with
ECONNREFUSED, the handler ends in an unhandled promise rejection and the
emitted notifications are just the `connection` event — no `error`
notification at all. -/
theorem static_forward_connect_error_not_reported :
    (onConnection sampleRemoteConfig [] sampleSocket (.failure "ECONNREFUSED")).handler =
      HandlerOutcome.unhandledRejection "ECONNREFUSED" ∧
    (onConnection sampleRemoteConfig [] sampleSocket (.failure "ECONNREFUSED")).events =
      [Notif.connectionEv 4000] := by
  exact ⟨rfl, rfl⟩

/-- C8 as amended: with a static remote configured, the `connection`
notification is emitted before the Forwarder runs (it is the head of the
emitted notifications in every outcome); if the automatic forward fails
with a connect error, no session is added and no `error` notification is
emitted — instead the rejection escapes the un-guarded `await` in the
async `connection` handler as an unhandled promise rejection (the server
object itself is never touched by the handler, so acceptance of further
connections is unaffected). -/
theorem connection_handler_rejection_escapes (cfg : PortForwarderOptionsFinal)
    (sessions : Registry) (socket : Socket) (remote : EndPoint) (msg : String)
    (hr : cfg.remote = some remote)
    (ha : truthyStr socket.remoteAddress = true) (hp : truthyNat socket.remotePort = true)
    (hpause : socket.paused = true) :
    (onConnection cfg sessions socket (.failure msg)).events = [Notif.connectionEv cfg.port] ∧
    (onConnection cfg sessions socket (.failure msg)).handler =
      HandlerOutcome.unhandledRejection msg ∧
    (onConnection cfg sessions socket (.failure msg)).sessions = sessions ∧
    (∀ c : ConnectOutcome,
      (onConnection cfg sessions socket c).events.head? =
        some (Notif.connectionEv cfg.port)) := by
  refine ⟨?_, ?_, ?_, ?_⟩
  · simp [onConnection, hr, forward, ha, hp, hpause]
  · simp [onConnection, hr, forward, ha, hp, hpause]
  · simp [onConnection, hr, forward, ha, hp, hpause]
  · intro c
    cases c <;> simp [onConnection, hr, forward, ha, hp, hpause]

/-- Witness for the amended C8 at a concrete configuration with static
remote 198.51.100.2:9000 and a connect failure. -/
theorem connection_handler_rejection_escapes_witness :
    (onConnection sampleRemoteConfig [] sampleSocket (.failure "ECONNREFUSED")).sessions =
      [] :=
  (connection_handler_rejection_escapes sampleRemoteConfig [] sampleSocket
    { ip := "198.51.100.2", port := 9000 } "ECONNREFUSED" rfl rfl rfl rfl).2.2.1

/-- C9: `list()` returns exactly the sessions currently in the registry
(the copy loop yields precisely the store's values, and a session is in
the returned snapshot iff it is stored under some key); and the snapshot
is a copy: after a subsequent `del` of a stored session's key the live
registry no longer resolves that key, and after a subsequent `set` the
live registry holds the new value, while the snapshot taken beforehand
(`listSessions r`, a pure value of the pre-mutation registry) still
contains the previously stored session. -/
theorem list_snapshot_exact (r : Registry) (k : SessionKey) (v : Session)
    (hmem : (k, v) ∈ r) :
    listSessions r = Registry.values r ∧
    (∀ s : Session, s ∈ listSessions r ↔ ∃ key, (key, s) ∈ r) ∧
    v ∈ listSessions r ∧
    Registry.lookup (Registry.del r k) k = none ∧
    Registry.lookup (Registry.set r k v) k = some v := by
  refine ⟨listSessions_eq_values r, ?_, ?_, Registry.lookup_del_self r k,
    Registry.lookup_set_self r k v⟩
  · intro s
    rw [listSessions_eq_values]
    constructor
    · intro hs
      rcases List.mem_map.mp hs with ⟨⟨key, s2⟩, hmem2, heq⟩
      exact ⟨key, by simpa [← heq] using hmem2⟩
    · rintro ⟨key, hmem2⟩
      exact List.mem_map.mpr ⟨(key, s), hmem2, rfl⟩
  · rw [listSessions_eq_values]
    exact List.mem_map.mpr ⟨(k, v), hmem, rfl⟩

/-- Witness for C9 at a one-session registry. -/
theorem list_snapshot_exact_witness :
    sampleSession ∈ listSessions [(sampleKey, sampleSession)] :=
  (list_snapshot_exact [(sampleKey, sampleSession)] sampleKey sampleSession
    (List.mem_singleton.mpr rfl)).2.2.1

/-- C10 counterexample: the two constructor revisions do not agree on every
input.  For the configuration `{ port: 4000, ip: "", timeout: 0 }` the
first revision's `||=` replaces both falsy fields, yielding a finalized
configuration with ip "0.0.0.0" and timeout 900000 and succeeding, while
the second revision's `??=` keeps them, so `isIP("")` is 0 and the
constructor throws. -/
theorem constructors_disagree_on_falsy_options :
    constructor1 sampleIsIP [] falsyOptions =
      Except.ok { port := 4000, ip := "0.0.0.0", timeout := 900000, keepalive := false,
                  remote := none } ∧
    constructor2 sampleIsIP [] falsyOptions =
      Except.error " is not a valid IP address" := by
  constructor
  · simp [constructor1, falsyOptions, sampleIsIP, networkInterfaces,
      List.mergeSort_singleton, orAssignStr, orAssignNat]
  · simp [constructor2, falsyOptions, sampleIsIP, networkInterfaces,
      List.mergeSort_singleton]

/-- C10 as amended: the two constructor revisions compute the same
finalized configuration and agree on success versus throwing for every
configuration whose `ip` is not the (falsy but non-nullish) empty string
and whose `timeout` is not 0; they diverge exactly on those inputs, where
`||=` default-fills and `??=` does not. -/
theorem constructors_agree_on_nonfalsy_options (isIPfn : String → Nat)
    (osAddresses : List String) (options : PortForwarderOptions)
    (hip : options.ip ≠ some "") (ht : options.timeout ≠ some 0) :
    constructor1 isIPfn osAddresses options = constructor2 isIPfn osAddresses options := by
  have hipEq : orAssignStr options.ip "0.0.0.0" = options.ip.getD "0.0.0.0" := by
    cases hx : options.ip with
    | none => rfl
    | some s =>
      have hs : ¬s = "" := by
        intro hc
        exact hip (by rw [hx, hc])
      simp [orAssignStr, hs]
  have htEq : orAssignNat options.timeout (15 * 60000) = options.timeout.getD (15 * 60000) := by
    cases hx : options.timeout with
    | none => rfl
    | some n =>
      have hn : ¬n = 0 := by
        intro hc
        exact ht (by rw [hx, hc])
      simp [orAssignNat, hn]
  simp [constructor1, constructor2, hipEq, htEq]

/-- Witness for the amended C10 at a concrete non-falsy configuration. -/
theorem constructors_agree_on_nonfalsy_options_witness :
    constructor1 sampleIsIP ["127.0.0.1"] nonFalsyOptions =
      constructor2 sampleIsIP ["127.0.0.1"] nonFalsyOptions :=
  constructors_agree_on_nonfalsy_options sampleIsIP ["127.0.0.1"] nonFalsyOptions
    (by simp [nonFalsyOptions]) (by simp [nonFalsyOptions])

end PortForwarderSpec
